import Mathlib

/-!
Verification of the Opti-aml-simulator core engines against their
natural-language specification.

The definitions below are a shallow embedding of the Python source, chiefly
`aml_django_simulator/simulation/engines/universal_engine.py` (scenario
execution), `smart_layer.py` (refinement layer), `comparison_engine.py` and
`risk_engine.py`.  Numeric values (Python floats) are modelled as rationals,
timestamps as rationals measured in days, and configuration dictionaries as
structures with `Option` fields whose `getD` defaults mirror `dict.get`
defaults in the source.
-/

namespace AmlSim

/-- Case-sensitive "is the first list an initial segment of the second". -/
def chHeadMatch : List Char → List Char → Bool
  | [], _ => true
  | _ :: _, [] => false
  | a :: as, b :: bs => a == b && chHeadMatch as bs

/-- Python's `needle in hay` substring test on character lists. -/
def chSub (needle : List Char) : List Char → Bool
  | [] => needle.isEmpty
  | b :: bs => chHeadMatch needle (b :: bs) || chSub needle bs

/-- ASCII lowercase of one character (Python `str.lower` on the ASCII
configuration strings this program handles). -/
def chLower (c : Char) : Char :=
  if 65 ≤ c.toNat ∧ c.toNat ≤ 90 then Char.ofNat (c.toNat + 32) else c

/-- Lowercased character list of a string. -/
def lowerStr (s : String) : List Char := s.data.map chLower

/-- Whitespace characters stripped by Python `str.strip()`. -/
def chIsSpace (c : Char) : Bool :=
  c == ' ' || c == '\t' || c == '\n' || c == '\r'

/-- Python `str.strip()` on a character list: drop whitespace at both ends. -/
def stripChars (l : List Char) : List Char :=
  ((l.dropWhile chIsSpace).reverse.dropWhile chIsSpace).reverse

/-- `.strip().lower()` of a string, as a character list. -/
def stripLower (s : String) : List Char := (stripChars s.data).map chLower

/-- Case-insensitive substring test: models Python `needle in hay` after both
sides are lowercased (the source lowercases narratives / entity names before
matching). -/
def strContainsCI (hay needle : String) : Bool :=
  chSub (lowerStr needle) (lowerStr hay)

/-- First value bound to `k` in an association list, with default `d`
(models `dict.get(k, d)`). -/
def lookupD {α : Type} (l : List (String × α)) (k : String) (d : α) : α :=
  match l.find? (fun p => p.1 == k) with
  | some p => p.2
  | none => d

/-! ## Aggregation stage: rolling-window peak scan
    (`UniversalScenarioEngine.run_scenario_logic`, lines 117–164) -/

/-- One (already filtered) transaction of a customer group, as used by the
peak scan: timestamp in days, value of the aggregation field (unparseable
values were already coerced to 0 upstream), transaction id. -/
structure Txn where
  date : ℚ
  value : ℚ
  txid : ℕ
deriving DecidableEq, Repr

/-- The aggregation functions supported by the engine. -/
inductive AggFunc | sum | count | avg | max | min
deriving DecidableEq, Repr

/-- Sum of a list of rationals. -/
def listSum (l : List ℚ) : ℚ := l.foldr (· + ·) 0

/-- Maximum of a list, 0 when empty (Python would raise on an empty list, but
the scan only evaluates nonempty windows when the window length is ≥ 0). -/
def listMax (l : List ℚ) : ℚ :=
  match l with
  | [] => 0
  | x :: xs => xs.foldl (fun a b => if a < b then b else a) x

/-- Minimum of a list, 0 when empty. -/
def listMin (l : List ℚ) : ℚ :=
  match l with
  | [] => 0
  | x :: xs => xs.foldl (fun a b => if b < a then b else a) x

/-- `aggregate(function, field)` over the values of one candidate window
(universal_engine.py lines 144–156); `avg` of an empty window is 0 here
(that case is unreachable with a nonnegative window length). -/
def aggFn : AggFunc → List ℚ → ℚ
  | .sum, l => listSum l
  | .count, l => (l.length : ℚ)
  | .avg, l => if l.length = 0 then 0 else listSum l / (l.length : ℚ)
  | .max, l => listMax l
  | .min, l => listMin l

/-- The transactions of the candidate window opened at index `i`: starting at
`items[i]`, take consecutive transactions while their date is ≤
`items[i].date + w` (the source's inner `for j` loop with its `break`). -/
def windowItems (w : ℚ) (items : List Txn) (i : ℕ) : List Txn :=
  match items.drop i with
  | [] => []
  | t :: rest => (t :: rest).takeWhile (fun x => decide (x.date ≤ t.date + w))

/-- Aggregate of candidate window `i`. -/
def candAgg (f : AggFunc) (w : ℚ) (items : List Txn) (i : ℕ) : ℚ :=
  aggFn f ((windowItems w items i).map (·.value))

/-- Transaction ids of candidate window `i`. -/
def candTxns (w : ℚ) (items : List Txn) (i : ℕ) : List ℕ :=
  (windowItems w items i).map (·.txid)

/-- One step of the peak scan: replace the running best only on a strictly
greater aggregate (`if current_agg > max_agg_val`, line 158). -/
def peakStep (f : AggFunc) (w : ℚ) (items : List Txn)
    (acc : ℚ × List ℕ) (i : ℕ) : ℚ × List ℕ :=
  if acc.1 < candAgg f w items i then (candAgg f w items i, candTxns w items i) else acc

/-- The rolling-window peak scan over one customer group
(universal_engine.py lines 123–164): running maximum starts at 0 with an
empty transaction subset; returns the chosen aggregated value and the
chosen window's transaction ids. -/
def peakScan (f : AggFunc) (w : ℚ) (items : List Txn) : ℚ × List ℕ :=
  (List.range items.length).foldl (peakStep f w items) (0, [])

/-! ## Threshold stage and alert decision
    (`universal_engine.py` lines 163–264, 366–423) -/

/-- Python `int()` on a rational: truncation toward zero. -/
def pyTrunc (q : ℚ) : ℤ := if q < 0 then -⌊-q⌋ else ⌊q⌋

/-- The claimed rounding: round to nearest integer.  Stated as round-half-up;
Python's `round` (half-to-even) agrees with it except at exact halves that
round to an odd integer, and the inputs used below avoid that boundary. -/
def roundNearest (q : ℚ) : ℤ := ⌊q + 1/2⌋

/-- Risk score of an emitted alert (universal_engine.py line 187):
`min(100, int((agg_val / threshold_val) * 50)) if threshold_val > 0 else 50`. -/
def riskScore (aggVal threshold : ℚ) : ℤ :=
  if 0 < threshold then min 100 (pyTrunc (aggVal / threshold * 50)) else 50

/-- `aggregation.count_threshold` configuration: `enabled` is the truthiness of
`count_threshold.get('enabled')`; `min_transactions` mirrors
`count_threshold.get('min_transactions', 1)`. -/
structure CountCfg where
  enabled : Bool
  min_transactions : Option ℕ
deriving DecidableEq, Repr

/-- A resolved threshold: `none` models Python's `float('inf')` (returned by
the segment resolver when no segment matches), `some t` a finite threshold. -/
def ThresholdVal : Type := Option ℚ

/-- One entry of `threshold.segment.values`: a segment label and its
(optional, `.get('threshold', 10000)`) threshold. -/
structure SegEntry where
  segment : String
  threshold : Option ℚ
deriving DecidableEq, Repr

/-- `UniversalScenarioEngine.calculate_segment_threshold` (lines 401–423):
empty field/values configuration or an unmatched (trimmed, lowercased)
segment value yields `float('inf')`, modelled as `none`; the first matching
entry's threshold wins.  `customer_data` is the customer's raw field map,
with values already rendered as strings (`str(customer_data.get(...))`). -/
def calculate_segment_threshold (segment_field : String)
    (segment_values : List SegEntry)
    (customer_data : List (String × String)) : Option ℚ :=
  if segment_field = "" || segment_values.isEmpty then none
  else
    let customer_segment := lookupD customer_data segment_field ""
    match segment_values.find?
        (fun seg => stripLower seg.segment == stripLower customer_segment) with
    | some seg => some (seg.threshold.getD 10000)
    | none => none

/-- Arithmetic formulas of the dynamic threshold.  The source substitutes the
reference value into the formula text and calls Python `eval`; per §9 of the
spec the formula language is restricted arithmetic over one variable, which
this AST embeds (`ref` is the substituted `reference_field` value). -/
inductive Expr
  | num (q : ℚ)
  | ref
  | add (a b : Expr)
  | sub (a b : Expr)
  | mul (a b : Expr)
  | div (a b : Expr)
deriving DecidableEq, Repr

/-- Evaluation of a dynamic-threshold formula at the reference value;
division by zero is the evaluation error `eval` can raise. -/
def evalExpr : Expr → ℚ → Except Unit ℚ
  | .num q, _ => .ok q
  | .ref, v => .ok v
  | .add a b, v => do pure ((← evalExpr a v) + (← evalExpr b v))
  | .sub a b, v => do pure ((← evalExpr a v) - (← evalExpr b v))
  | .mul a b, v => do pure ((← evalExpr a v) * (← evalExpr b v))
  | .div a b, v => do
      let x ← evalExpr a v
      let y ← evalExpr b v
      if y = 0 then .error () else pure (x / y)

/-- `threshold.dynamic` configuration.  `formula = none` models a missing or
empty formula string; `Option` fields mirror `dict.get` defaults. -/
structure DynCfg where
  reference_field : String
  formula : Option Expr
  fallback_value : Option ℚ
  min_threshold : Option ℚ
  max_threshold : Option ℚ

/-- `UniversalScenarioEngine.calculate_dynamic_threshold` (lines 366–399):
missing `reference_field`/`formula` or any formula-evaluation error returns
the fallback (default 50000); otherwise the result is clamped below by
`min_threshold`, above by `max_threshold` (each only if set) and finally
below by 0 (`return max(0, result)` on line 396). -/
def calculate_dynamic_threshold (cfg : DynCfg)
    (customer_data : List (String × ℚ)) : ℚ :=
  let fallback := cfg.fallback_value.getD 50000
  match cfg.formula with
  | none => fallback
  | some f =>
    if cfg.reference_field = "" then fallback
    else
      let base := lookupD customer_data cfg.reference_field 0
      match evalExpr f base with
      | .error _ => fallback
      | .ok result =>
        let r1 := match cfg.min_threshold with
          | some m => max m result
          | none => result
        let r2 := match cfg.max_threshold with
          | some m => min m r1
          | none => r1
        max 0 r2

/-- The fixed threshold: `float(threshold_cfg.get('fixed_value', 0))`
(line 184). -/
def fixedThreshold (fixed_value : Option ℚ) : ℚ := fixed_value.getD 0

/-- Per-customer-group alert decision (universal_engine.py lines 117–264,
narrative and enrichment fields omitted): groups with no transactions are
skipped (line 127); a configured count threshold with too few transactions
in the chosen window skips the group (lines 166–169); otherwise an alert
`(aggregated_value, transaction_count, risk_score)` is emitted iff
`agg_val >= threshold_val` (line 186).  An infinite (segment-miss) threshold
never fires, since the finite aggregate compares below `float('inf')`. -/
def groupAlert (f : AggFunc) (w : ℚ) (items : List Txn)
    (ct : CountCfg) (thr : Option ℚ) : Option (ℚ × ℕ × ℤ) :=
  if items.isEmpty then none
  else
    let p := peakScan f w items
    let cnt := p.2.length
    if ct.enabled && decide (cnt < ct.min_transactions.getD 1) then none
    else
      match thr with
      | none => none
      | some t => if t ≤ p.1 then some (p.1, cnt, riskScore p.1 t) else none

/-! ## Refinement layer (`smart_layer.py`) -/

/-- A row of the `VerifiedEntity` reference table. -/
structure VEntity where
  entity_name : String
  entity_type : String
  is_active : Bool
deriving DecidableEq, Repr

/-- `EventDetector.is_verified_entity` (smart_layer.py lines 22–31): an empty
beneficiary is never verified; otherwise the whitelist must contain an active
entity of the requested type whose name contains the beneficiary name
case-insensitively (the ORM `entity_name__icontains` filter). -/
def is_verified_entity (entities : List VEntity)
    (entity_name entity_type : String) : Bool :=
  if entity_name = "" then false
  else entities.any (fun e =>
    strContainsCI e.entity_name entity_name
      && e.entity_type == entity_type && e.is_active)

/-- `EventDetector.EDUCATION_KEYWORDS`. -/
def EDUCATION_KEYWORDS : List String :=
  ["university", "tuition", "education", "school", "college", "student fee",
   "semester"]

/-- `EventDetector.LOAN_KEYWORDS`. -/
def LOAN_KEYWORDS : List String :=
  ["loan", "emi", "mortgage", "repayment", "installment", "financing"]

/-- `EventDetector.FIXED_DEPOSIT_KEYWORDS`. -/
def FIXED_DEPOSIT_KEYWORDS : List String :=
  ["fixed deposit", "fd", "term deposit", "investment", "fd maturity"]

/-- The event context returned by the detector; `etype` is the dict's
`type` key (a Lean reserved word). -/
structure EventCtx where
  etype : String
  is_verified : Bool
  amount_reasonable : Bool
deriving DecidableEq, Repr

/-- `EventDetector.detect_event_context` (smart_layer.py lines 33–66):
classify the narrative by case-insensitive keyword lists, education before
loan before fixed-deposit; education additionally checks the University
whitelist and caps the amount at 50000, loan looks up the
FinancialInstitution whitelist, fixed-deposit performs no checks. -/
def detect_event_context (entities : List VEntity) (narrative : String)
    (amount : ℚ) (beneficiary : String) : Option EventCtx :=
  if narrative = "" then none
  else
    let event_type : Option String :=
      if EDUCATION_KEYWORDS.any (fun kw => strContainsCI narrative kw) then
        some "education"
      else if LOAN_KEYWORDS.any (fun kw => strContainsCI narrative kw) then
        some "loan"
      else if FIXED_DEPOSIT_KEYWORDS.any (fun kw => strContainsCI narrative kw) then
        some "fixed_deposit"
      else none
    match event_type with
    | none => none
    | some t =>
      let verified :=
        if t == "education" then is_verified_entity entities beneficiary "University"
        else if t == "loan" then is_verified_entity entities beneficiary "FinancialInstitution"
        else false
      let reasonable := !(t == "education" && decide (50000 < amount))
      some ⟨t, verified, reasonable⟩

/-- The fields of a transaction the refinement loop reads
(smart_layer.py lines 115–119). -/
structure TxnData where
  transaction_narrative : String
  transaction_amount : ℚ
  beneficiary_name : String
deriving DecidableEq, Repr

/-- Whether one transaction makes the current rule exclude an alert
(smart_layer.py lines 121–139): the detected event type must be among the
rule's `excluded_events`; an education event additionally requires
verification and a reasonable amount, any other event type excludes on the
keyword match alone. -/
def txnShouldExclude (entities : List VEntity) (excluded_events : List String)
    (t : TxnData) : Bool :=
  match detect_event_context entities t.transaction_narrative
      t.transaction_amount t.beneficiary_name with
  | none => false
  | some ctx =>
    excluded_events.contains ctx.etype
      && (if ctx.etype == "education" then ctx.is_verified && ctx.amount_reasonable
          else true)

/-- The alert fields the refinement layer reads and writes. -/
structure SAlert where
  alert_id : ℕ
  customer_id : ℕ
  excluded : Bool
  exclusion_reason : Option String
deriving DecidableEq, Repr

/-- One `AlertExclusionLog` row (`_write_exclusion_log`). -/
structure LogEntry where
  alert_id : ℕ
  rule_id : String
  exclusion_reason : String
deriving DecidableEq, Repr

/-- The human-readable exclusion reason built at the matching transaction
(smart_layer.py lines 133 and 136). -/
def exclusionReasonFor (etype beneficiary : String) : String :=
  if etype == "education" then
    "Verified " ++ etype ++ " transaction to " ++ beneficiary
  else "Legitimate " ++ etype ++ " transaction"

/-- Applying one `event_based` rule to one alert
(smart_layer.py lines 90–151): an already-excluded alert is skipped
unchanged with no log write; otherwise the first transaction in the alert's
lookback window satisfying `txnShouldExclude` marks the alert excluded and
appends exactly one exclusion-log entry. -/
def applyRuleToAlert (entities : List VEntity) (rule_id : String)
    (excluded_events : List String) (txns : List TxnData) (a : SAlert) :
    SAlert × List LogEntry :=
  if a.excluded then (a, [])
  else
    match txns.find? (txnShouldExclude entities excluded_events) with
    | none => (a, [])
    | some t =>
      let etype :=
        match detect_event_context entities t.transaction_narrative
            t.transaction_amount t.beneficiary_name with
        | some ctx => ctx.etype
        | none => ""
      let reason := exclusionReasonFor etype t.beneficiary_name
      ({ a with excluded := true, exclusion_reason := some reason },
       [⟨a.alert_id, rule_id, reason⟩])

/-- One refinement rule; `rtype` is the dict's `type` key. -/
structure RefinementRule where
  rtype : String
  rule_id : String
  excluded_events : List String
deriving DecidableEq, Repr

/-- One rule applied across an alert list; `txnsOf cid` is the (read-only)
lookback window of transactions fetched for customer `cid`
(smart_layer.py lines 98–109). -/
def applyRuleToAlerts (entities : List VEntity) (rule_id : String)
    (excluded_events : List String) (txnsOf : ℕ → List TxnData)
    (alerts : List SAlert) : List SAlert × List LogEntry :=
  (alerts.map (fun a =>
     (applyRuleToAlert entities rule_id excluded_events (txnsOf a.customer_id) a).1),
   (alerts.map (fun a =>
     (applyRuleToAlert entities rule_id excluded_events (txnsOf a.customer_id) a).2)).flatten)

/-- `SmartLayerProcessor.apply_refinements` (smart_layer.py lines 74–153):
an empty alert list short-circuits; rules that are not `event_based` or have
no `excluded_events` are skipped; the remaining rules are applied in order,
accumulating exclusion-log entries. -/
def apply_refinements (entities : List VEntity) (txnsOf : ℕ → List TxnData)
    (rules : List RefinementRule) (alerts : List SAlert) :
    List SAlert × List LogEntry :=
  if alerts.isEmpty then ([], [])
  else
    rules.foldl (fun st rule =>
      if rule.rtype == "event_based" && !rule.excluded_events.isEmpty then
        let r := applyRuleToAlerts entities rule.rule_id rule.excluded_events
          txnsOf st.1
        (r.1, st.2 ++ r.2)
      else st) (alerts, [])

/-! ## Risk engine (`risk_engine.py`) -/

/-- The exclusion simulation of `RiskEngine.analyze_risk_gap`
(risk_engine.py lines 83–87): an alert counts as would-be-excluded iff
`'education'` is among the rule's `excluded_events` and the alert's
lowercased narrative (`scenario_description`) contains `'tuition'` or
`'university'`. -/
def riskWouldExclude (excluded_events : List String) (narrative : String) : Bool :=
  excluded_events.contains "education"
    && (strContainsCI narrative "tuition" || strContainsCI narrative "university")

/-- One rule of the hypothetical refinement list, with the engine's
`rule.get('type') == 'event_based'` gate (risk_engine.py lines 76–77). -/
def riskRuleWouldExclude (rule : RefinementRule) (narrative : String) : Bool :=
  rule.rtype == "event_based" && riskWouldExclude rule.excluded_events narrative

/-- Whether the risk engine treats a baseline alert as would-be-excluded by
any rule of the hypothetical list (the rule loop of lines 76–99). -/
def riskAlertExcluded (rules : List RefinementRule) (narrative : String) : Bool :=
  rules.any (fun r => riskRuleWouldExclude r narrative)

/-! ## Comparison engine (`comparison_engine.py`) -/

/-- The alert fields the comparison engine reads. -/
structure CAlert where
  customer_id : ℕ
  risk_score : ℤ
  aggregated_value : ℚ
deriving DecidableEq, Repr

/-- Python `round(q, 2)`, stated as round-half-up at the second decimal;
Python rounds exact half-cents to even, a boundary no claim exercises. -/
def round2 (q : ℚ) : ℚ := (⌊q * 100 + 1/2⌋ : ℚ) / 100

/-- The entry `{cid: alert}` dict comprehension keeps for `cid`: the last
alert of that customer (comparison_engine.py lines 98–99). -/
def lastFor (l : List CAlert) (cid : ℕ) : Option CAlert :=
  (l.filter (fun a => a.customer_id == cid)).getLast?

/-- The distinct customer ids of an alert set, in first-appearance order
(models the `set(...)` of customer ids). -/
def alertCustomers (l : List CAlert) : List ℕ :=
  (l.map (·.customer_id)).dedup

/-- `ComparisonEngine._calculate_summary` output (lines 61–88). -/
structure Summary where
  baseline_alerts : ℕ
  refined_alerts : ℕ
  net_change : ℤ
  reduction_rate : ℚ
  maintained_customers : ℕ
  removed_customers : ℕ
  added_customers : ℕ
deriving DecidableEq, Repr

/-- `ComparisonEngine._calculate_summary` (comparison_engine.py lines
61–88): alert counts, `net_change = baseline - refined`, reduction rate as
a percentage of the baseline (0 when the baseline is empty), and
customer-set intersection/difference sizes. -/
def calculate_summary (b r : List CAlert) : Summary :=
  let bc := alertCustomers b
  let rc := alertCustomers r
  let maintained := (bc.filter (fun c => rc.contains c)).length
  let removed := (bc.filter (fun c => !rc.contains c)).length
  let added := (rc.filter (fun c => !bc.contains c)).length
  let bcount := b.length
  let rcount := r.length
  let net : ℤ := (bcount : ℤ) - (rcount : ℤ)
  let reduction : ℚ := if 0 < bcount then (net : ℚ) / (bcount : ℚ) * 100 else 0
  ⟨bcount, rcount, net, round2 reduction, maintained, removed, added⟩

/-- Diff status of one customer. -/
inductive DStatus | added | removed | maintained
deriving DecidableEq, Repr

/-- One granular-diff entry (scenario and reason strings omitted; they play
no role in any claim). -/
structure DiffEntry where
  customer_id : ℕ
  status : DStatus
  risk_score : ℤ
  risk_change : ℤ
  amount : ℚ
deriving DecidableEq, Repr

/-- The diff entry for one customer (comparison_engine.py lines 104–130):
status from map membership, display data from the refined alert when
present else the baseline one, `risk_change` only for maintained
customers. -/
def diffEntry (b r : List CAlert) (cid : ℕ) : DiffEntry :=
  let ba := lastFor b cid
  let ra := lastFor r cid
  let status :=
    if ba.isSome && !ra.isSome then DStatus.removed
    else if !ba.isSome && ra.isSome then DStatus.added
    else DStatus.maintained
  let display :=
    match ra, ba with
    | some a, _ => a
    | none, some a => a
    | none, none => ⟨cid, 0, 0⟩
  let risk_change :=
    match ba, ra with
    | some x, some y => y.risk_score - x.risk_score
    | _, _ => 0
  ⟨cid, status, display.risk_score, risk_change, display.aggregated_value⟩

/-- Stable descending insertion by an integer key (models Python's stable
`sort(key=..., reverse=True)`): an element moves ahead only of strictly
smaller keys, so equal keys keep their original order. -/
def insertDescBy {α : Type} (key : α → ℤ) (e : α) : List α → List α
  | [] => [e]
  | x :: xs => if key x < key e then e :: x :: xs else x :: insertDescBy key e xs

/-- Stable descending sort by an integer key. -/
def sortDescBy {α : Type} (key : α → ℤ) (l : List α) : List α :=
  l.foldl (fun acc e => insertDescBy key e acc) []

/-- `ComparisonEngine._calculate_granular_diff` (lines 90–135): one entry
per customer appearing in either set, sorted by risk score descending and
truncated to the default limit of 100. -/
def calculate_granular_diff (b r : List CAlert) : List DiffEntry :=
  let all := (alertCustomers b ++ alertCustomers r).dedup
  (sortDescBy (·.risk_score) (all.map (diffEntry b r))).take 100

/-- `ComparisonEngine._analyze_risk` output (lines 137–183). -/
structure RiskAnalysis where
  risk_score : ℚ
  risk_level : String
  high_risk_suppressions : ℕ
deriving DecidableEq, Repr

/-- `ComparisonEngine._analyze_risk` (comparison_engine.py lines 137–183):
an empty diff is SAFE with score 0; otherwise the score is the mean of the
top 10 risk scores among the diff entries, and since
`high_risk_suppressions = len(granular_diff) > 0` in that branch the level
is always CRITICAL. -/
def analyze_risk (gd : List DiffEntry) : RiskAnalysis :=
  if gd.isEmpty then ⟨0, "SAFE", 0⟩
  else
    let top := (sortDescBy id (gd.map (·.risk_score))).take 10
    let score : ℚ :=
      if top.isEmpty then 0
      else listSum (top.map (fun z => (z : ℚ))) / (top.length : ℚ)
    let level :=
      if 0 < gd.length then "CRITICAL"
      else if 50 ≤ score then "DANGEROUS"
      else if 25 ≤ score then "CAUTION"
      else "SAFE"
    ⟨round2 score, level, gd.length⟩

/-- `CompareAlertSets` / `ComparisonEngine.compare_runs` on two in-memory
alert sets: summary, granular diff, risk analysis. -/
def compareAlertSets (b r : List CAlert) :
    Summary × List DiffEntry × RiskAnalysis :=
  let gd := calculate_granular_diff b r
  (calculate_summary b r, gd, analyze_risk gd)

/-! ## Lemmas and claim theorems -/

/-- The running maximum of the peak scan never decreases across a fold. -/
lemma foldl_peakStep_ge_init (f : AggFunc) (w : ℚ) (items : List Txn) :
    ∀ (l : List ℕ) (acc : ℚ × List ℕ),
      acc.1 ≤ (l.foldl (peakStep f w items) acc).1 := by
  intro l
  induction l with
  | nil => intro acc; simp
  | cons i t ih =>
    intro acc
    have hstep : acc.1 ≤ (peakStep f w items acc i).1 := by
      unfold peakStep
      by_cases h : acc.1 < candAgg f w items i
      · simp [h]; exact le_of_lt h
      · simp [h]
    calc acc.1 ≤ (peakStep f w items acc i).1 := hstep
      _ ≤ (t.foldl (peakStep f w items) (peakStep f w items acc i)).1 := ih _

/-- After the fold has processed index `i`, the running maximum is at least
the aggregate of candidate window `i`. -/
lemma foldl_peakStep_ge_mem (f : AggFunc) (w : ℚ) (items : List Txn) :
    ∀ (l : List ℕ) (acc : ℚ × List ℕ) (i : ℕ), i ∈ l →
      candAgg f w items i ≤ (l.foldl (peakStep f w items) acc).1 := by
  intro l
  induction l with
  | nil => intro acc i h; cases h
  | cons j t ih =>
    intro acc i h
    rcases List.mem_cons.mp h with rfl | hmem
    · have hstep : candAgg f w items i ≤ (peakStep f w items acc i).1 := by
        unfold peakStep
        by_cases hc : acc.1 < candAgg f w items i
        · simp [hc]
        · simp [hc]; exact le_of_not_lt hc
      calc candAgg f w items i ≤ (peakStep f w items acc i).1 := hstep
        _ ≤ (t.foldl (peakStep f w items) (peakStep f w items acc i)).1 :=
          foldl_peakStep_ge_init f w items t _
    · exact ih _ i hmem

/-- If every remaining candidate aggregate is ≤ the running maximum's current
value 0, the fold leaves the initial state untouched. -/
lemma foldl_peakStep_all_nonpos (f : AggFunc) (w : ℚ) (items : List Txn) :
    ∀ (l : List ℕ), (∀ i ∈ l, candAgg f w items i ≤ 0) →
      l.foldl (peakStep f w items) ((0 : ℚ), ([] : List ℕ)) = (0, []) := by
  intro l
  induction l with
  | nil => intro _; rfl
  | cons j t ih =>
    intro h
    have hj : candAgg f w items j ≤ 0 := h j (List.mem_cons_self j t)
    have hstep : peakStep f w items ((0 : ℚ), ([] : List ℕ)) j = (0, []) := by
      unfold peakStep
      have : ¬ ((0 : ℚ) < candAgg f w items j) := not_lt.mpr hj
      simp [this]
    simp only [List.foldl_cons, hstep]
    exact ih (fun i hi => h i (List.mem_cons_of_mem j hi))

/-- Claim C1: for every aggregation function in {sum, count, avg, max, min},
window length and customer group, the aggregated value chosen by the
rolling-window peak scan is greater than or equal to the aggregate of every
candidate window `[t_i, t_i + window_days]` (one per transaction index `i`)
over that group's filtered transactions — the true-maximum property. -/
theorem C1_peak_scan_true_maximum (f : AggFunc) (w : ℚ) (items : List Txn)
    (i : ℕ) (h : i < items.length) :
    candAgg f w items i ≤ (peakScan f w items).1 :=
  foldl_peakStep_ge_mem f w items _ _ i (List.mem_range.mpr h)

/-- Witness for C1 at a concrete group of two transactions. -/
theorem C1_peak_scan_true_maximum_witness :
    1 < ([⟨0, 5, 1⟩, ⟨2, 7, 2⟩] : List Txn).length ∧
      candAgg .sum 30 [⟨0, 5, 1⟩, ⟨2, 7, 2⟩] 1 ≤
        (peakScan .sum 30 [⟨0, 5, 1⟩, ⟨2, 7, 2⟩]).1 :=
  ⟨by decide, C1_peak_scan_true_maximum .sum 30 _ 1 (by decide)⟩

/-- Claim C10: the aggregated value produced by the rolling-window peak scan
is always ≥ 0 (the running maximum starts at 0 with an empty subset and is
only replaced by a strictly greater aggregate), and when every candidate
window's aggregate is ≤ 0 the group reports aggregated value 0 with an
empty chosen window — hence transaction count 0 — instead of the true
window aggregate. -/
theorem C10_peak_scan_nonneg :
    (∀ (f : AggFunc) (w : ℚ) (items : List Txn), 0 ≤ (peakScan f w items).1) ∧
    (∀ (f : AggFunc) (w : ℚ) (items : List Txn),
      (∀ i, i < items.length → candAgg f w items i ≤ 0) →
        peakScan f w items = (0, [])) := by
  constructor
  · intro f w items
    exact foldl_peakStep_ge_init f w items _ _
  · intro f w items h
    exact foldl_peakStep_all_nonpos f w items _
      (fun i hi => h i (List.mem_range.mp hi))

/-- Witness for C10: a single transaction of value -5 has true window
aggregate -5, yet the scan reports 0 with an empty window. -/
theorem C10_peak_scan_nonneg_witness :
    0 ≤ (peakScan .sum 30 [⟨0, -5, 1⟩]).1 ∧
      peakScan .sum 30 [⟨0, -5, 1⟩] = (0, []) :=
  ⟨C10_peak_scan_nonneg.1 .sum 30 _,
   C10_peak_scan_nonneg.2 .sum 30 _ (by
     intro i hi
     simp only [List.length_cons, List.length_nil] at hi
     have hz : i = 0 := by omega
     subst hz
     norm_num [candAgg, aggFn, windowItems, listSum])⟩

/-- Claim C2 counterexample: with `fixed_value` unset (resolving to 0) and a
customer group consisting of one transaction of value 0, the aggregated
value is 0 and yet an alert IS emitted (`0 >= 0` at line 186), with the
fixed default risk score 50 — refuting "no alert fires when fixed_value is
unset/zero and aggregated_value is zero". -/
theorem C2_counterexample :
    fixedThreshold none = 0 ∧
    (peakScan .sum 30 [⟨0, 0, 1⟩]).1 = 0 ∧
    groupAlert .sum 30 [⟨0, 0, 1⟩] ⟨false, none⟩ (some (fixedThreshold none)) =
      some (0, 0, 50) := by
  refine ⟨rfl, ?_, ?_⟩
  · norm_num [peakScan, List.range_succ, peakStep, candAgg, candTxns,
      windowItems, aggFn, listSum]
  · norm_num [groupAlert, fixedThreshold, peakScan, List.range_succ, peakStep,
      candAgg, candTxns, windowItems, aggFn, listSum, riskScore]

/-- Claim C2 (amended): for every customer group an alert is emitted iff the
group is nonempty, the count threshold (when enabled) is met by the chosen
window's transaction count, and the aggregated value is ≥ the resolved
finite threshold; in particular under a fixed threshold of 0 (unset) a
group whose aggregated value is 0 DOES alert. -/
theorem C2_alert_condition (f : AggFunc) (w : ℚ) (items : List Txn)
    (ct : CountCfg) (t : ℚ) :
    (groupAlert f w items ct (some t)).isSome = true ↔
      (items ≠ [] ∧
        (ct.enabled = true →
          ct.min_transactions.getD 1 ≤ (peakScan f w items).2.length) ∧
        t ≤ (peakScan f w items).1) := by
  unfold groupAlert
  by_cases hempty : items.isEmpty
  · simp [hempty, List.isEmpty_iff.mp hempty]
  · have hne : items ≠ [] := fun h => hempty (by simp [h])
    by_cases hen : ct.enabled <;>
      by_cases hcnt :
        (peakScan f w items).2.length < ct.min_transactions.getD 1 <;>
      by_cases hthr : t ≤ (peakScan f w items).1 <;>
      simp [hempty, hen, hcnt, hthr, hne] <;>
      omega

/-- Witness for C2 (amended) at a concrete group: one transaction of value
120, fixed threshold 100, count threshold disabled — the alert decision is
`isSome = true` and the right-hand side holds. -/
theorem C2_alert_condition_witness :
    (groupAlert .sum 30 [⟨0, 120, 1⟩] ⟨false, none⟩ (some 100)).isSome = true :=
  (C2_alert_condition .sum 30 [⟨0, 120, 1⟩] ⟨false, none⟩ 100).mpr
    ⟨by simp, by simp, by
      norm_num [peakScan, List.range_succ, peakStep, candAgg, candTxns,
        windowItems, aggFn, listSum]⟩


/-- Claim C5 counterexample: at aggregated value 7 and threshold 4 the ratio
times 50 is 87.5; the code's `int()` truncation (line 187) yields risk
score 87, while the claimed `round` yields 88. -/
theorem C5_counterexample :
    riskScore 7 4 = 87 ∧ min 100 (roundNearest (7 / 4 * 50)) = 88 ∧
      (87 : ℤ) ≠ 88 := by
  refine ⟨?_, ?_, by decide⟩
  · norm_num [riskScore, pyTrunc]
  · norm_num [roundNearest]

/-- Claim C5 (amended): for every emitted alert with resolved threshold > 0,
`risk_score = min(100, int(aggregated_value / threshold * 50))` — `int()`
truncation, which equals the floor since the ratio is nonnegative whenever
the alert fired (aggregated_value ≥ threshold > 0); when the threshold is
not > 0 the risk score is the fixed default 50.  The spec's example still
holds: 10 transactions of 12,000 over 10 days with a 30-day sum window and
fixed threshold 100,000 yield exactly one alert for the group, with
aggregated value 120,000, transaction count 10 and risk score 60. -/
theorem C5_risk_score_truncation :
    (∀ agg thr : ℚ, 0 < thr → thr ≤ agg →
        riskScore agg thr = min 100 ⌊agg / thr * 50⌋) ∧
    (∀ agg thr : ℚ, thr ≤ 0 → riskScore agg thr = 50) ∧
    groupAlert .sum 30
        [⟨0, 12000, 1⟩, ⟨1, 12000, 2⟩, ⟨2, 12000, 3⟩, ⟨3, 12000, 4⟩,
         ⟨4, 12000, 5⟩, ⟨5, 12000, 6⟩, ⟨6, 12000, 7⟩, ⟨7, 12000, 8⟩,
         ⟨8, 12000, 9⟩, ⟨9, 12000, 10⟩] ⟨false, none⟩ (some 100000) =
      some (120000, 10, 60) := by
  refine ⟨?_, ?_, ?_⟩
  · intro agg thr h1 h2
    have hpos : (0 : ℚ) ≤ agg / thr * 50 :=
      mul_nonneg (div_pos (lt_of_lt_of_le h1 h2) h1).le (by norm_num)
    simp [riskScore, h1, pyTrunc, not_lt.mpr hpos]
  · intro agg thr h
    simp [riskScore, not_lt.mpr h]
  · norm_num [groupAlert, peakScan, List.range_succ, peakStep, candAgg,
      candTxns, windowItems, aggFn, listSum, riskScore, pyTrunc]

/-- Witness for C5 (amended): concrete instantiations of both conditional
parts — threshold 2 with aggregate 3 gives `min 100 ⌊75⌋`, and a
non-positive threshold gives the default 50. -/
theorem C5_risk_score_truncation_witness :
    riskScore 3 2 = min 100 ⌊(3 : ℚ) / 2 * 50⌋ ∧ riskScore 5 0 = 50 :=
  ⟨C5_risk_score_truncation.1 3 2 (by norm_num) (by norm_num),
   C5_risk_score_truncation.2.1 5 0 (by norm_num)⟩


/-- A group whose resolved threshold is infinite (`float('inf')`, i.e.
`none`) never produces an alert, whatever its transactions. -/
lemma groupAlert_inf_threshold (f : AggFunc) (w : ℚ) (items : List Txn)
    (ct : CountCfg) : groupAlert f w items ct none = none := by
  unfold groupAlert
  by_cases h : items.isEmpty
  · simp [h]
  · simp [h]

/-- Claim C8: under a segment threshold, a customer whose segment-field value
matches no configured segment under trimmed case-insensitive comparison
resolves to an infinite threshold and can never alert, regardless of the
aggregated value; while a configured segment differing only in letter case
from the customer's value does match and yields a finite threshold. -/
theorem C8_segment_fail_closed (segment_field : String)
    (segment_values : List SegEntry)
    (customer_data : List (String × String)) :
    ((∀ seg ∈ segment_values,
        stripLower seg.segment ≠
          stripLower (lookupD customer_data segment_field "")) →
      calculate_segment_threshold segment_field segment_values customer_data
          = none ∧
      ∀ (f : AggFunc) (w : ℚ) (items : List Txn) (ct : CountCfg),
        groupAlert f w items ct
          (calculate_segment_threshold segment_field segment_values
            customer_data) = none) ∧
    (segment_field ≠ "" → segment_values ≠ [] →
      (∃ seg ∈ segment_values,
        stripLower seg.segment =
          stripLower (lookupD customer_data segment_field "")) →
      ∃ t : ℚ,
        calculate_segment_threshold segment_field segment_values customer_data
          = some t) := by
  constructor
  · intro hnone
    have hth : calculate_segment_threshold segment_field segment_values
        customer_data = none := by
      unfold calculate_segment_threshold
      by_cases hif : segment_field = "" || segment_values.isEmpty
      · simp [hif]
      · simp only [hif, if_false, Bool.false_eq_true]
        have hfind : segment_values.find?
            (fun seg => stripLower seg.segment ==
              stripLower (lookupD customer_data segment_field "")) = none :=
          List.find?_eq_none.mpr (fun seg hseg => by
            simpa using hnone seg hseg)
        simp [hfind]
    refine ⟨hth, fun f w items ct => ?_⟩
    rw [hth]
    exact groupAlert_inf_threshold f w items ct
  · intro hf hv ⟨seg, hseg, hmatch⟩
    unfold calculate_segment_threshold
    have hif : (segment_field = "" || segment_values.isEmpty) = false := by
      simp [hf, hv]
    simp only [hif, Bool.false_eq_true, if_false]
    have hex : ∃ x ∈ segment_values,
        (fun seg => stripLower seg.segment ==
          stripLower (lookupD customer_data segment_field "")) x = true :=
      ⟨seg, hseg, by simpa using hmatch⟩
    obtain ⟨x, hfind⟩ := List.find?_isSome.mpr hex |> Option.isSome_iff_exists.mp
    rw [hfind]
    exact ⟨x.threshold.getD 10000, rfl⟩

/-- Witness for C8: segment list `[("Retail", 5000)]` — a customer with
segment value `"corporate"` resolves to the infinite threshold and a sample
group does not alert even with aggregate 1,000,000; a customer with segment
value `"RETAIL"` (case-differing) resolves to the finite threshold 5000. -/
theorem C8_segment_fail_closed_witness :
    (calculate_segment_threshold "segment" [⟨"Retail", some 5000⟩]
        [("segment", "corporate")] = none ∧
      groupAlert .sum 30 [⟨0, 1000000, 1⟩] ⟨false, none⟩
        (calculate_segment_threshold "segment" [⟨"Retail", some 5000⟩]
          [("segment", "corporate")]) = none) ∧
    (∃ t : ℚ, calculate_segment_threshold "segment" [⟨"Retail", some 5000⟩]
        [("segment", "RETAIL")] = some t) := by
  constructor
  · have h := (C8_segment_fail_closed "segment" [⟨"Retail", some 5000⟩]
      [("segment", "corporate")]).1 (by decide)
    exact ⟨h.1, h.2 .sum 30 [⟨0, 1000000, 1⟩] ⟨false, none⟩⟩
  · exact (C8_segment_fail_closed "segment" [⟨"Retail", some 5000⟩]
      [("segment", "RETAIL")]).2 (by decide) (by decide)
      ⟨⟨"Retail", some 5000⟩, by decide⟩


/-- Claim C9 counterexample: reference value 0 with formula
`reference_field - 100000` evaluates without error to -100000 and no bound
is set, yet the resolver returns 0 (the `max(0, result)` on line 396), not
the formula's result — refuting "otherwise returns the formula's result
clamped to [min_threshold, max_threshold] for whichever bounds are set". -/
theorem C9_counterexample :
    evalExpr (.sub .ref (.num 100000)) 0 = .ok (-100000) ∧
    calculate_dynamic_threshold
        ⟨"income", some (.sub .ref (.num 100000)), some 777, none, none⟩
        [("income", 0)] = 0 ∧
    (0 : ℚ) ≠ -100000 := by
  refine ⟨?_, ?_, by norm_num⟩
  · norm_num [evalExpr, Bind.bind, Except.bind, Pure.pure, Except.pure,
      Except.instMonad]
  · have h : ("income" : String) ≠ "" := by decide
    norm_num [calculate_dynamic_threshold, evalExpr, lookupD, Bind.bind,
      Except.bind, Pure.pure, Except.pure, Except.instMonad, h]

/-- Claim C9 (amended): dynamic threshold resolution returns the configured
fallback whenever `reference_field` or `formula` is missing or formula
evaluation errors (so a formula error never blocks the alert decision);
otherwise it returns `max(0, result)` after clamping the formula result by
whichever of `min_threshold`/`max_threshold` is set — in particular, with
consistent nonnegative bounds `0 ≤ m ≤ M` the returned threshold lies in
`[m, M]`, and with no bounds set it is `max 0 result`, not the raw
result. -/
theorem C9_dynamic_fallback :
    (∀ (cfg : DynCfg) (cust : List (String × ℚ)), cfg.formula = none →
        calculate_dynamic_threshold cfg cust = cfg.fallback_value.getD 50000) ∧
    (∀ (cfg : DynCfg) (cust : List (String × ℚ)), cfg.reference_field = "" →
        calculate_dynamic_threshold cfg cust = cfg.fallback_value.getD 50000) ∧
    (∀ (cfg : DynCfg) (cust : List (String × ℚ)) (f : Expr),
        cfg.formula = some f →
        evalExpr f (lookupD cust cfg.reference_field 0) = .error () →
        calculate_dynamic_threshold cfg cust = cfg.fallback_value.getD 50000) ∧
    (∀ (cfg : DynCfg) (cust : List (String × ℚ)) (f : Expr) (r : ℚ),
        cfg.formula = some f → cfg.reference_field ≠ "" →
        evalExpr f (lookupD cust cfg.reference_field 0) = .ok r →
        cfg.min_threshold = none → cfg.max_threshold = none →
        calculate_dynamic_threshold cfg cust = max 0 r) ∧
    (∀ (cfg : DynCfg) (cust : List (String × ℚ)) (f : Expr) (r m M : ℚ),
        cfg.formula = some f → cfg.reference_field ≠ "" →
        evalExpr f (lookupD cust cfg.reference_field 0) = .ok r →
        cfg.min_threshold = some m → cfg.max_threshold = some M →
        0 ≤ m → m ≤ M →
        m ≤ calculate_dynamic_threshold cfg cust ∧
          calculate_dynamic_threshold cfg cust ≤ M) := by
  refine ⟨?_, ?_, ?_, ?_, ?_⟩
  · intro cfg cust h
    simp [calculate_dynamic_threshold, h]
  · intro cfg cust h
    unfold calculate_dynamic_threshold
    cases cfg.formula <;> simp [h]
  · intro cfg cust f hf herr
    unfold calculate_dynamic_threshold
    rw [hf]
    by_cases href : cfg.reference_field = ""
    · simp [href]
    · simp [href, herr]
  · intro cfg cust f r hf href hok hmin hmax
    simp [calculate_dynamic_threshold, hf, href, hok, hmin, hmax]
  · intro cfg cust f r m M hf href hok hmin hmax h0m hmM
    have hval : calculate_dynamic_threshold cfg cust = max 0 (min M (max m r)) := by
      simp [calculate_dynamic_threshold, hf, href, hok, hmin, hmax]
    rw [hval]
    constructor
    · exact le_trans (le_min hmM (le_max_left m r)) (le_max_right 0 _)
    · exact max_le (le_trans h0m hmM) (min_le_left M _)

/-- Witness for C9 (amended): a missing formula returns the fallback 42; a
division-by-zero formula returns the fallback 99; an unbounded formula
result -100000 is clamped below at 0; bounds `[1000, 2000]` contain the
returned threshold for a formula result of 3000. -/
theorem C9_dynamic_fallback_witness :
    calculate_dynamic_threshold ⟨"x", none, some 42, none, none⟩ [] = 42 ∧
    calculate_dynamic_threshold
        ⟨"x", some (.div (.num 1) (.sub .ref .ref)), some 99, none, none⟩
        [("x", 5)] = 99 ∧
    calculate_dynamic_threshold
        ⟨"income", some (.sub .ref (.num 100000)), some 777, none, none⟩
        [("income", 0)] = max 0 (-100000) ∧
    (1000 ≤ calculate_dynamic_threshold
        ⟨"x", some (.num 3000), some 5, some 1000, some 2000⟩ [] ∧
      calculate_dynamic_threshold
        ⟨"x", some (.num 3000), some 5, some 1000, some 2000⟩ [] ≤ 2000) :=
  ⟨C9_dynamic_fallback.1 _ [] rfl,
   C9_dynamic_fallback.2.2.1 _ [("x", 5)] _ rfl
     (by norm_num [evalExpr, lookupD, Bind.bind, Except.bind, Pure.pure, Except.pure, Except.instMonad]),
   C9_dynamic_fallback.2.2.2.1 _ [("income", 0)] _ (-100000) rfl
     (by decide) (by norm_num [evalExpr, lookupD, Bind.bind, Except.bind, Pure.pure, Except.pure, Except.instMonad])
     rfl rfl,
   C9_dynamic_fallback.2.2.2.2 _ [] _ 3000 1000 2000 rfl (by decide)
     (by norm_num [evalExpr, lookupD]) rfl rfl (by norm_num) (by norm_num)⟩


/-- Unfolding of the per-transaction exclusion decision once the detector has
classified the transaction. -/
lemma txnShouldExclude_some (wl : List VEntity) (events : List String)
    (t : TxnData) (ctx : EventCtx)
    (h : detect_event_context wl t.transaction_narrative t.transaction_amount
      t.beneficiary_name = some ctx) :
    txnShouldExclude wl events t =
      (events.contains ctx.etype &&
        (if ctx.etype == "education" then ctx.is_verified && ctx.amount_reasonable
         else true)) := by
  unfold txnShouldExclude
  rw [h]

/-- A detector result classified as education carries exactly the University
whitelist lookup and the 50000 reasonableness cap. -/
lemma detect_education_fields (wl : List VEntity) (nar : String) (amount : ℚ)
    (ben : String) (ctx : EventCtx)
    (h : detect_event_context wl nar amount ben = some ctx)
    (he : ctx.etype = "education") :
    ctx.is_verified = is_verified_entity wl ben "University" ∧
    ctx.amount_reasonable = !decide (50000 < amount) := by
  unfold detect_event_context at h
  by_cases hn : nar = ""
  · simp [hn] at h
  · simp only [hn, if_false] at h
    by_cases h1 : EDUCATION_KEYWORDS.any (fun kw => strContainsCI nar kw)
    · simp [h1] at h
      rw [← h]
      simp
    · by_cases h2 : LOAN_KEYWORDS.any (fun kw => strContainsCI nar kw)
      · simp [h1, h2] at h
        rw [← h] at he
        simp at he
      · by_cases h3 : FIXED_DEPOSIT_KEYWORDS.any (fun kw => strContainsCI nar kw)
        · simp [h1, h2, h3] at h
          rw [← h] at he
          simp at he
        · simp [h1, h2, h3] at h

/-- Claim C6: under an `event_based` rule excluding education, a transaction
classified as education suppresses only when the beneficiary matches an
active University in the VerifiedEntity whitelist AND the amount is ≤
50,000 — so an education transaction of 80,000 to a verified university
does not suppress — while a transaction classified as loan or fixed-deposit
suppresses on the keyword match alone, with no whitelist or amount
requirement. -/
theorem C6_education_verification :
    (∀ (wl : List VEntity) (events : List String) (t : TxnData)
        (ctx : EventCtx),
        detect_event_context wl t.transaction_narrative t.transaction_amount
          t.beneficiary_name = some ctx →
        ctx.etype = "education" →
        (txnShouldExclude wl events t = true ↔
          (events.contains "education" = true ∧
            is_verified_entity wl t.beneficiary_name "University" = true ∧
            t.transaction_amount ≤ 50000))) ∧
    (∀ (wl : List VEntity) (events : List String) (t : TxnData)
        (ctx : EventCtx),
        detect_event_context wl t.transaction_narrative t.transaction_amount
          t.beneficiary_name = some ctx →
        (ctx.etype = "loan" ∨ ctx.etype = "fixed_deposit") →
        (txnShouldExclude wl events t = true ↔
          events.contains ctx.etype = true)) ∧
    txnShouldExclude [⟨"Stanford University", "University", true⟩]
      ["education"]
      ⟨"university tuition payment", 80000, "Stanford University"⟩ = false ∧
    is_verified_entity [⟨"Stanford University", "University", true⟩]
      "Stanford University" "University" = true ∧
    txnShouldExclude [⟨"Stanford University", "University", true⟩]
      ["education"]
      ⟨"university tuition payment", 30000, "Stanford University"⟩ = true ∧
    txnShouldExclude [] ["loan"] ⟨"loan repayment", 999999, "anybody"⟩
      = true := by
  refine ⟨?_, ?_, by decide, by decide, by decide, by decide⟩
  · intro wl events t ctx hdet he
    obtain ⟨hv, hr⟩ := detect_education_fields wl _ _ _ ctx hdet he
    rw [txnShouldExclude_some wl events t ctx hdet, he, hv, hr]
    simp [not_lt]
  · intro wl events t ctx hdet he
    have hne : (ctx.etype == "education") = false := by
      rcases he with h | h <;> simp [h]
    rw [txnShouldExclude_some wl events t ctx hdet, hne]
    simp

/-- Witness for C6 at concrete inputs: an education transaction of 80,000 to
a whitelisted active university is not excluded (the amount cap fails), and
a loan-classified transaction is excluded under a loan rule with an empty
whitelist. -/
theorem C6_education_verification_witness :
    (txnShouldExclude [⟨"Stanford University", "University", true⟩]
        ["education"]
        ⟨"university tuition payment", 80000, "Stanford University"⟩ = true ↔
      (List.contains ["education"] "education" = true ∧
        is_verified_entity [⟨"Stanford University", "University", true⟩]
          "Stanford University" "University" = true ∧
        (80000 : ℚ) ≤ 50000)) ∧
    (txnShouldExclude [] ["loan"] ⟨"loan repayment", 999999, "anybody"⟩
        = true ↔ List.contains ["loan"] "loan" = true) :=
  ⟨C6_education_verification.1
      [⟨"Stanford University", "University", true⟩] ["education"]
      ⟨"university tuition payment", 80000, "Stanford University"⟩
      ⟨"education", true, false⟩ (by decide) rfl,
   C6_education_verification.2.1 [] ["loan"]
      ⟨"loan repayment", 999999, "anybody"⟩ ⟨"loan", false, true⟩
      (by decide) (Or.inl rfl)⟩


/-- Applying a rule to an alert never clears its excluded flag. -/
lemma applyRuleToAlert_excluded_stable (wl : List VEntity) (rid : String)
    (events : List String) (txns : List TxnData) (a : SAlert) :
    a.excluded = true →
    applyRuleToAlert wl rid events txns a = (a, []) := by
  intro h
  unfold applyRuleToAlert
  simp [h]

/-- One rule application is idempotent on a single alert: applying the same
rule to the alert state it produced changes nothing and writes no log. -/
lemma applyRuleToAlert_idem (wl : List VEntity) (rid : String)
    (events : List String) (txns : List TxnData) (a : SAlert) :
    applyRuleToAlert wl rid events txns
      ((applyRuleToAlert wl rid events txns a).1) =
      ((applyRuleToAlert wl rid events txns a).1, []) := by
  by_cases h : a.excluded = true
  · rw [applyRuleToAlert_excluded_stable wl rid events txns a h]
    exact applyRuleToAlert_excluded_stable wl rid events txns a h
  · unfold applyRuleToAlert
    simp only [h]
    cases hf : txns.find? (txnShouldExclude wl events) with
    | none => simp [h, hf]
    | some t => simp

/-- Claim C7: applying a refinement rule to an already-excluded Alert is a
no-op — the excluded flag and exclusion_reason are unchanged and no
ExclusionLogEntry is written; hence one rule application is idempotent per
alert, and running any rule list over an alert set that is entirely
excluded returns the set unchanged with no new log entries. -/
theorem C7_refinement_idempotent :
    (∀ (wl : List VEntity) (rid : String) (events : List String)
        (txns : List TxnData) (a : SAlert), a.excluded = true →
        applyRuleToAlert wl rid events txns a = (a, [])) ∧
    (∀ (wl : List VEntity) (rid : String) (events : List String)
        (txns : List TxnData) (a : SAlert),
        applyRuleToAlert wl rid events txns
          ((applyRuleToAlert wl rid events txns a).1) =
          ((applyRuleToAlert wl rid events txns a).1, [])) ∧
    (∀ (wl : List VEntity) (txnsOf : ℕ → List TxnData)
        (rules : List RefinementRule) (alerts : List SAlert),
        (∀ a ∈ alerts, a.excluded = true) →
        apply_refinements wl txnsOf rules alerts = (alerts, [])) := by
  refine ⟨applyRuleToAlert_excluded_stable, applyRuleToAlert_idem, ?_⟩
  intro wl txnsOf rules alerts hall
  unfold apply_refinements
  by_cases hempty : alerts.isEmpty
  · simp [hempty, List.isEmpty_iff.mp hempty]
  · simp only [hempty, Bool.false_eq_true, if_false]
    have hrule : ∀ (rid : String) (events : List String),
        applyRuleToAlerts wl rid events txnsOf alerts = (alerts, []) := by
      intro rid events
      unfold applyRuleToAlerts
      rw [Prod.mk.injEq]
      constructor
      · rw [List.map_congr_left (fun a ha => by
          rw [applyRuleToAlert_excluded_stable wl rid events
            (txnsOf a.customer_id) a (hall a ha)])]
        exact List.map_id alerts
      · rw [List.map_congr_left (fun a ha => by
          rw [applyRuleToAlert_excluded_stable wl rid events
            (txnsOf a.customer_id) a (hall a ha)])]
        simp
    induction rules with
    | nil => rfl
    | cons r rs ih =>
      simp only [List.foldl_cons]
      by_cases hr : (r.rtype == "event_based" && !r.excluded_events.isEmpty) = true
      · rw [if_pos hr, hrule r.rule_id r.excluded_events]
        simpa using ih
      · rw [if_neg hr]
        exact ih

/-- Witness for C7: an already-excluded alert passes through one rule
application unchanged with no log entry, and a rule list over an
all-excluded alert set returns it unchanged. -/
theorem C7_refinement_idempotent_witness :
    applyRuleToAlert [] "r1" ["education"]
      [⟨"university fee", 30000, "X"⟩] ⟨7, 3, true, some "done"⟩ =
      (⟨7, 3, true, some "done"⟩, []) ∧
    apply_refinements [] (fun _ => [⟨"university fee", 30000, "X"⟩])
      [⟨"event_based", "r1", ["education"]⟩] [⟨7, 3, true, some "done"⟩] =
      ([⟨7, 3, true, some "done"⟩], []) :=
  ⟨C7_refinement_idempotent.1 [] "r1" ["education"]
      [⟨"university fee", 30000, "X"⟩] ⟨7, 3, true, some "done"⟩ rfl,
   C7_refinement_idempotent.2.2 [] (fun _ => [⟨"university fee", 30000, "X"⟩])
      [⟨"event_based", "r1", ["education"]⟩] [⟨7, 3, true, some "done"⟩]
      (by intro a ha; simp at ha; rw [ha])⟩


/-- Claim C4 counterexample: on the same narrative/amount/beneficiary
context — an education-keyword narrative, amount 80,000, beneficiary not on
any whitelist — the Risk Engine counts the alert as would-be-excluded
(narrative contains "university"), while the Refinement Layer's
classification-and-verification logic does NOT exclude (education requires
a verified University beneficiary and amount ≤ 50,000).  The two decision
procedures therefore differ. -/
theorem C4_counterexample :
    riskWouldExclude ["education"] "university payment" = true ∧
    txnShouldExclude [] ["education"]
      ⟨"university payment", 80000, "Some College Trust"⟩ = false ∧
    riskWouldExclude ["loan"] "loan repayment" = false ∧
    txnShouldExclude [] ["loan"] ⟨"loan repayment", 5000, "B"⟩ = true := by
  refine ⟨by decide, by decide, by decide, by decide⟩

/-- Claim C4 (amended): the Risk Engine never mutates stored Alerts (its
embedded decision reads only the alert narrative), but its exclusion
simulation is NOT the Refinement Layer's classification/verification
logic: it treats an alert as would-be-excluded iff the rule's
excluded_events contain "education" and the alert narrative contains
"tuition" or "university" case-insensitively — with no University-whitelist
or amount verification, and with no exclusion at all for loan or
fixed-deposit rules, both of which the Refinement Layer does apply. -/
theorem C4_risk_engine_simplified :
    (∀ (events : List String) (nar : String),
        riskWouldExclude events nar = true ↔
          (events.contains "education" = true ∧
            (strContainsCI nar "tuition" = true ∨
              strContainsCI nar "university" = true))) ∧
    (∀ (events : List String) (nar : String),
        events.contains "education" = false →
        riskWouldExclude events nar = false) ∧
    (∀ (wl : List VEntity) (nar : String) (amount : ℚ) (ben : String)
        (ctx : EventCtx),
        detect_event_context wl nar amount ben = some ctx →
        ctx.etype = "loan" →
        txnShouldExclude wl ["loan"] ⟨nar, amount, ben⟩ = true ∧
          riskWouldExclude ["loan"] nar = false) := by
  refine ⟨?_, ?_, ?_⟩
  · intro events nar
    simp [riskWouldExclude]
  · intro events nar h
    unfold riskWouldExclude
    rw [h]
    simp
  · intro wl nar amount ben ctx hdet he
    constructor
    · have hne : (ctx.etype == "education") = false := by simp [he]
      rw [txnShouldExclude_some wl ["loan"] ⟨nar, amount, ben⟩ ctx hdet, hne]
      simp [he]
    · simp [riskWouldExclude]

/-- Witness for C4 (amended) at concrete inputs: a loan-classified
transaction is excluded by the Refinement Layer under a loan rule while the
Risk Engine's simulation never excludes under that rule; and a rule list
without education never excludes in the Risk Engine. -/
theorem C4_risk_engine_simplified_witness :
    (txnShouldExclude [] ["loan"] ⟨"emi payment", 12345, "C"⟩ = true ∧
      riskWouldExclude ["loan"] "emi payment" = false) ∧
    riskWouldExclude ["fixed_deposit"] "university tuition" = false :=
  ⟨C4_risk_engine_simplified.2.2 [] "emi payment" 12345 "C"
      ⟨"loan", false, true⟩ (by decide) rfl,
   C4_risk_engine_simplified.2.1 ["fixed_deposit"] "university tuition"
      (by decide)⟩


/-- Membership in a descending insertion. -/
lemma mem_insertDescBy {α : Type} (key : α → ℤ) (e : α) (l : List α)
    (x : α) : x ∈ insertDescBy key e l ↔ x = e ∨ x ∈ l := by
  induction l with
  | nil => simp [insertDescBy]
  | cons a t ih =>
    unfold insertDescBy
    by_cases h : key a < key e
    · simp [h]
    · simp [h, ih]
      tauto

/-- Length of a descending insertion. -/
lemma length_insertDescBy {α : Type} (key : α → ℤ) (e : α) (l : List α) :
    (insertDescBy key e l).length = l.length + 1 := by
  induction l with
  | nil => rfl
  | cons a t ih =>
    unfold insertDescBy
    by_cases h : key a < key e <;> simp [h, ih]

/-- Membership across the sorting fold. -/
lemma mem_sortFold {α : Type} (key : α → ℤ) :
    ∀ (l acc : List α) (x : α),
      (x ∈ l.foldl (fun acc e => insertDescBy key e acc) acc) ↔
        (x ∈ acc ∨ x ∈ l) := by
  intro l
  induction l with
  | nil => simp
  | cons a t ih =>
    intro acc x
    simp only [List.foldl_cons]
    rw [ih]
    rw [mem_insertDescBy]
    simp
    tauto

/-- Length across the sorting fold. -/
lemma length_sortFold {α : Type} (key : α → ℤ) :
    ∀ (l acc : List α),
      (l.foldl (fun acc e => insertDescBy key e acc) acc).length =
        acc.length + l.length := by
  intro l
  induction l with
  | nil => simp
  | cons a t ih =>
    intro acc
    simp only [List.foldl_cons]
    rw [ih, length_insertDescBy]
    simp only [List.length_cons]
    omega

/-- The stable descending sort is a reordering: same members. -/
lemma mem_sortDescBy {α : Type} (key : α → ℤ) (l : List α) (x : α) :
    x ∈ sortDescBy key l ↔ x ∈ l := by
  unfold sortDescBy
  rw [mem_sortFold]
  simp

/-- The stable descending sort preserves length. -/
lemma length_sortDescBy {α : Type} (key : α → ℤ) (l : List α) :
    (sortDescBy key l).length = l.length := by
  unfold sortDescBy
  rw [length_sortFold]
  simp

/-- Comparing an alert set against itself makes every customer's diff entry
a `maintained` one with zero risk change. -/
lemma diffEntry_self (X : List CAlert) (cid : ℕ) :
    (diffEntry X X cid).status = DStatus.maintained ∧
    (diffEntry X X cid).risk_change = 0 := by
  unfold diffEntry
  cases h : lastFor X cid <;> simp [h]

/-- Claim C3 counterexample: comparing a nonempty alert set with itself
yields a NONEMPTY granular diff (one `maintained` entry per customer) and
risk level CRITICAL, not the claimed empty diff with SAFE/0: the analyzer
escalates to CRITICAL whenever the diff — which includes maintained
customers — is nonempty. -/
theorem C3_counterexample :
    calculate_granular_diff [⟨1, 80, 1000⟩] [⟨1, 80, 1000⟩] ≠ [] ∧
    (analyze_risk (calculate_granular_diff [⟨1, 80, 1000⟩] [⟨1, 80, 1000⟩])
      ).risk_level = "CRITICAL" := by
  constructor
  · norm_num [calculate_granular_diff, alertCustomers, diffEntry, lastFor,
      sortDescBy, insertDescBy, lookupD]
  · norm_num [calculate_granular_diff, alertCustomers, diffEntry, lastFor,
      sortDescBy, insertDescBy, analyze_risk, round2, listSum, lookupD]

/-- Claim C3 (amended): `CompareAlertSets(X, X)` yields `net_change = 0` and
reduction percentage 0; every granular-diff entry is `maintained` with
`risk_change = 0`; the granular diff is empty iff `X` is empty; and the
risk analysis is SAFE with score 0 when `X` is empty but CRITICAL whenever
`X` is nonempty (the diff contains the maintained customers). -/
theorem C3_compare_self (X : List CAlert) :
    (calculate_summary X X).net_change = 0 ∧
    (calculate_summary X X).reduction_rate = 0 ∧
    (∀ e ∈ calculate_granular_diff X X,
        e.status = DStatus.maintained ∧ e.risk_change = 0) ∧
    (calculate_granular_diff X X = [] ↔ X = []) ∧
    (X = [] → analyze_risk (calculate_granular_diff X X) = ⟨0, "SAFE", 0⟩) ∧
    (X ≠ [] →
      (analyze_risk (calculate_granular_diff X X)).risk_level = "CRITICAL") := by
  have hempty_iff : calculate_granular_diff X X = [] ↔ X = [] := by
    constructor
    · intro h
      unfold calculate_granular_diff at h
      rcases List.take_eq_nil_iff.mp h with h100 | hsorted
      · exact absurd h100 (by norm_num)
      · have hmap : (((alertCustomers X ++ alertCustomers X).dedup).map
            (diffEntry X X)) = [] := by
          have := length_sortDescBy (fun e => e.risk_score)
            (((alertCustomers X ++ alertCustomers X).dedup).map
              (diffEntry X X))
          rw [hsorted] at this
          exact List.eq_nil_of_length_eq_zero this.symm
        have hdedup := List.map_eq_nil_iff.mp hmap
        have happ := (List.dedup_eq_nil _).mp hdedup
        have hac : alertCustomers X = [] := by
          rcases List.append_eq_nil.mp happ with ⟨h1, _⟩
          exact h1
        unfold alertCustomers at hac
        exact List.map_eq_nil_iff.mp ((List.dedup_eq_nil _).mp hac)
    · intro h
      subst h
      rfl
  refine ⟨?_, ?_, ?_, hempty_iff, ?_, ?_⟩
  · simp [calculate_summary]
  · simp [calculate_summary, round2]
    by_cases h : 0 < X.length <;> norm_num [h]
  · intro e he
    unfold calculate_granular_diff at he
    have he2 := List.mem_of_mem_take he
    rw [mem_sortDescBy] at he2
    obtain ⟨cid, _, rfl⟩ := List.mem_map.mp he2
    exact diffEntry_self X cid
  · intro h
    rw [hempty_iff.mpr h, analyze_risk]
    rfl
  · intro hne
    have hgd : calculate_granular_diff X X ≠ [] :=
      fun h => hne (hempty_iff.mp h)
    have hpos : 0 < (calculate_granular_diff X X).length :=
      List.length_pos.mpr hgd
    unfold analyze_risk
    rw [if_neg (by simpa [List.isEmpty_iff] using hgd)]
    simp [hpos]

/-- Witness for C3 (amended): the empty alert set compared with itself is
SAFE with score 0, and a concrete one-alert set compared with itself is
CRITICAL. -/
theorem C3_compare_self_witness :
    analyze_risk (calculate_granular_diff [] ([] : List CAlert)) =
      ⟨0, "SAFE", 0⟩ ∧
    (analyze_risk (calculate_granular_diff [⟨2, 50, 10⟩] [⟨2, 50, 10⟩])
      ).risk_level = "CRITICAL" :=
  ⟨(C3_compare_self []).2.2.2.2.1 rfl,
   (C3_compare_self [⟨2, 50, 10⟩]).2.2.2.2.2 (by simp)⟩

end AmlSim
